import Mathlib

/-!
Verification of the transaction reconciliation and posting pipeline of a
bank-to-record-store sync service, shallowly embedded from the Python sources
`src/utils/exchange_utils.py`, `src/notion/notion_utils.py`,
`src/notion/category_mapper.py` and `src/revolut/notion_revolut_connector.py`.

Modelling conventions:
* Python `Decimal` values and exchange rates are exact rationals (`Rat`);
  `Decimal.quantize(Decimal("0.01"))` is `quantize2` (round half to even).
* Python dicts used as lookup tables are association lists consulted with
  `List.lookup`; dict assignment is modelled by consing, which shadows the
  previous binding exactly as assignment overwrites it.
* Outbound HTTP calls are abstracted as parameters: the record store is a
  function from (transaction identifier, income flag) to a success Boolean,
  and the exchange-rate service call is an `Option Rat` (`none` covers both a
  request failure after retries and a response without a USD rate, which the
  source treats identically by falling through to the fallback table).
* File persistence (JSON load/save) is modelled by passing the persisted
  value in and returning the value that is written back.
-/

namespace NotionRevolut

/-! ## Basic string operations (Python `in`, `.lower()`, `.strip()`) -/

/-- `charsStart n h` holds when `n` is an initial segment of `h`. -/
def charsStart : List Char → List Char → Bool
  | [], _ => true
  | _ :: _, [] => false
  | a :: as, b :: bs => a == b && charsStart as bs

/-- `charsContain n h` holds when `n` occurs contiguously inside `h`. -/
def charsContain : List Char → List Char → Bool
  | needle, [] => needle.isEmpty
  | needle, c :: rest => charsStart needle (c :: rest) || charsContain needle rest

/-- Python `needle in haystack` substring test. -/
def strContains (haystack needle : String) : Bool :=
  charsContain needle.data haystack.data

/-- Python `str.lower()`. -/
def lowerStr (s : String) : String := ⟨s.data.map Char.toLower⟩

/-- Python `str.strip()`: drop whitespace from both ends. -/
def stripStr (s : String) : String :=
  ⟨((s.data.dropWhile Char.isWhitespace).reverse.dropWhile Char.isWhitespace).reverse⟩

/-! ## Data model -/

/-- A feed transaction (`src/revolut/notion_revolut_connector.py`); the
timestamp is in epoch seconds (the source parses ISO timestamps into
`datetime` values and only compares / truncates them). -/
structure Tx where
  transaction_id : String
  amount : Rat
  currency : String
  description : String
  timestamp : Int
deriving DecidableEq, Repr

/-- A failure-queue record (`log_failed_transaction` in
`src/notion/notion_utils.py`): the original transaction, account context,
direction flag, the classified error type, the retry count, and the
last-retry timestamp added by the retry pass. -/
structure FailedTx where
  transaction : Tx
  account : String
  is_income : Bool
  error_type : String
  retry_count : Nat
  last_retry : Option Int
deriving DecidableEq, Repr

/-! ## Currency normalizer (`src/utils/exchange_utils.py`) -/

/-- `Decimal.quantize(Decimal("0.01"))` with the default `ROUND_HALF_EVEN`
rounding mode, on exact rationals. -/
def quantize2 (q : Rat) : Rat :=
  let x : Rat := q * 100
  let n : Int := x.floor
  let r : Rat := x - (n : Rat)
  if r < 1/2 then (n : Rat) / 100
  else if (1 : Rat)/2 < r then ((n + 1 : Int) : Rat) / 100
  else if n % 2 = 0 then (n : Rat) / 100
  else ((n + 1 : Int) : Rat) / 100

/-- `FALLBACK_RATES` of `src/utils/exchange_utils.py` lines 13-23. -/
def FALLBACK_RATES : List (String × Rat) :=
  [("PLN", 25/100), ("EUR", 11/10), ("USD", 1), ("GBP", 127/100),
   ("CHF", 114/100), ("AED", 27/100), ("CAD", 74/100), ("TRY", 3/100),
   ("HUF", 295/100000)]

/-- The converter's mutable state: the persistent rate cache and the
module-level fallback table (mutable because `convert_to_usd` assigns
`FALLBACK_RATES[currency] = float(rate)` on a successful fetch). -/
structure ExchangeState where
  cache : List (String × Rat)
  fallback : List (String × Rat)
deriving DecidableEq, Repr

/-- `ExchangeRateConverter._get_cache_key`. -/
def get_cache_key (currency date : String) : String := currency ++ "_" ++ date

/-- `ExchangeRateConverter.convert_to_usd`.  `api` is the abstracted outcome
of `_api_request_with_retry` plus the extraction of `data["rates"]["USD"]`
(`none` when the request raises after its retries or the rate is absent; the
source falls through to the fallback table in both cases).  The date clamping
`min(parsed date, today)` only affects the URL given to the abstracted remote
call, so it does not appear here.  Returns the converted amount, the new
state, and the number of remote-service invocations. -/
def convert_to_usd (api : Option Rat) (st : ExchangeState) (amount : Rat)
    (currency date : String) : Rat × ExchangeState × Nat :=
  if currency = "USD" then (amount, st, 0)
  else
    match st.cache.lookup (get_cache_key currency date) with
    | some cached_rate => (quantize2 (amount * cached_rate), st, 0)
    | none =>
      match api with
      | some rate =>
        (quantize2 (amount * rate),
          { cache := (get_cache_key currency date, rate) :: st.cache,
            fallback := (currency, rate) :: st.fallback }, 1)
      | none =>
        match st.fallback.lookup currency with
        | some fallback_rate => (quantize2 (amount * fallback_rate), st, 1)
        | none => (amount, st, 1)

/-! ## Record-store outcome classification (`src/notion/notion_utils.py`) -/

/-- `is_temporary_error` (lines 62-64): Python `status_code in [429, 500,
502, 503, 504]`. -/
def is_temporary_error (status : Nat) : Bool :=
  decide (status ∈ [429, 500, 502, 503, 504])

/-- `is_permanent_error` (lines 67-69): Python `status_code in [400, 401,
403, 404, 422]`. -/
def is_permanent_error (status : Nat) : Bool :=
  decide (status ∈ [400, 401, 403, 404, 422])

/-- The part of a queued error record that the outcome classification
determines: the response status and the classified error type string. -/
structure ErrorInfo where
  status_code : Nat
  error_type : String
deriving DecidableEq, Repr

/-- The response-handling section of `post_transaction_to_notion_internal`
(lines 325-361): given the record-store response status, the returned success
flag and the failure-queue entries appended via `log_failed_transaction`. -/
def postOutcome (status : Nat) : Bool × List ErrorInfo :=
  if status = 200 then (true, [])
  else if is_temporary_error status then (false, [⟨status, "temporary"⟩])
  else if is_permanent_error status then (false, [⟨status, "permanent"⟩])
  else (false, [⟨status, "unknown"⟩])

/-! ## Retry-with-backoff wrappers -/

/-- Outcome of one attempted outbound request, mirroring the exception
classes the two retry wrappers distinguish: a normal return, a
`requests.exceptions.Timeout`, a `ConnectionError`, an `HTTPError` carrying
its response status (raised by `raise_for_status` in the exchange-rate
wrapper only), another `RequestException`, or any other exception. -/
inductive ReqResult where
  | success
  | timeout
  | connError
  | httpError (status : Nat)
  | reqError
  | otherError
deriving DecidableEq, Repr

/-- Which outcomes `retry_with_backoff` in `src/notion/notion_utils.py`
retries: timeouts and connection errors only. -/
def notionRetryable : ReqResult → Bool
  | .timeout => true
  | .connError => true
  | _ => false

/-- Which outcomes `ExchangeRateConverter._api_request_with_retry` retries:
timeouts, connection errors, and HTTP errors with a server (≥ 500) status. -/
def apiRetryable : ReqResult → Bool
  | .timeout => true
  | .connError => true
  | .httpError s => decide (500 ≤ s)
  | _ => false

def MAX_RETRIES : Nat := 3
def BASE_DELAY : Nat := 1

/-- Common shape of both retry loops.  `op n` is the outcome of the `n`-th
attempt (0-based); `fuel` counts the attempts still allowed.  Both sources
sleep `BASE_DELAY * 2 ** attempt` only when another attempt will follow, and
otherwise leave the loop (via `break` or by falling off the `range`) and
re-raise.  Returns (success flag, attempts made, list of sleeps performed). -/
def retryLoop (retryable : ReqResult → Bool) (op : Nat → ReqResult) :
    Nat → Nat → Bool × Nat × List Nat
  | _, 0 => (false, 0, [])
  | attempt, fuel + 1 =>
    match op attempt with
    | .success => (true, 1, [])
    | r =>
      if retryable r && decide (0 < fuel) then
        let res := retryLoop retryable op (attempt + 1) fuel
        (res.1, res.2.1 + 1, BASE_DELAY * 2 ^ attempt :: res.2.2)
      else (false, 1, [])

/-- `retry_with_backoff` of `src/notion/notion_utils.py` lines 108-143. -/
def retry_with_backoff (op : Nat → ReqResult) : Bool × Nat × List Nat :=
  retryLoop notionRetryable op 0 MAX_RETRIES

/-- `ExchangeRateConverter._api_request_with_retry` of
`src/utils/exchange_utils.py` lines 56-109. -/
def api_request_with_retry (op : Nat → ReqResult) : Bool × Nat × List Nat :=
  retryLoop apiRetryable op 0 MAX_RETRIES

/-! ## Failure-queue retry pass (`retry_failed_transactions`) -/

/-- One iteration of the loop in `retry_failed_transactions` (lines 416-437):
permanent entries are kept untouched without a post attempt; other entries
are re-posted, dropped on success, and kept with `retry_count` incremented
and `last_retry` set on failure.  The accumulator carries the `still_failed`
list and the number of post invocations. -/
def retryStep (post : Tx → String → Bool → Bool) (now : Int)
    (acc : List FailedTx × Nat) (failed_tx : FailedTx) : List FailedTx × Nat :=
  if failed_tx.error_type = "permanent" then (acc.1 ++ [failed_tx], acc.2)
  else if post failed_tx.transaction failed_tx.account failed_tx.is_income then
    (acc.1, acc.2 + 1)
  else
    (acc.1 ++ [{ failed_tx with
                   retry_count := failed_tx.retry_count + 1,
                   last_retry := some now }], acc.2 + 1)

/-- `retry_failed_transactions` (lines 394-447): fold the queue through
`retryStep`; the first component is the `still_failed` list written back to
the queue file, the second the number of post invocations made. -/
def retry_failed_transactions (post : Tx → String → Bool → Bool) (now : Int)
    (failed_txs : List FailedTx) : List FailedTx × Nat :=
  failed_txs.foldl (retryStep post now) ([], 0)

/-! ## Category classifier (`src/notion/category_mapper.py`) -/

def DEFAULT_CATEGORY : String := "Other"

/-- The ordered keyword walk of `categorize_transaction`: first category
whose keyword list has a substring match against the normalized
description. -/
def keywordMatch : List (String × List String) → String → Option String
  | [], _ => none
  | (category, keywords) :: rest, d =>
    if keywords.any (fun k => strContains d k) then some category
    else keywordMatch rest d

def transfer_keywords : List String :=
  ["exchanged to", "exchanged from", "vault", "transfer"]

/-- `categorize_transaction` (lines 59-91).  The keyword tables come from
`data/categories.json` (not part of the sources), so they are parameters, as
is the semantic-similarity fallback `_categorize_semantically` (an embedding
model, not expressible here). -/
def categorize_transaction (expense_keywords income_keywords : List (String × List String))
    (semantic : String → Bool → String) (description : String)
    (is_income : Bool) : String :=
  if description = "" then DEFAULT_CATEGORY
  else
    let description_lower := stripStr (lowerStr description)
    if transfer_keywords.any (fun k => strContains description_lower k) then "Transfer"
    else
      match keywordMatch (if is_income then income_keywords else expense_keywords)
          description_lower with
      | some category => category
      | none => semantic description is_income

/-! ## Category resolution in the posting orchestrator -/

/-- `CATEGORY_IDS` of `src/notion/notion_utils.py` lines 28-41. -/
def CATEGORY_IDS : List (String × String) :=
  [("Food", "12e364a1215e8144817beb04c569ea05"),
   ("Transport", "12e364a1215e81cdbe08f0a9cbb58a64"),
   ("Beauty", "12e364a1215e8041bba4dc6a1dfbf0ef"),
   ("Gifts", "12e364a1215e8103a271fd24cebd6148"),
   ("Health", "233364a1215e801ba547ed5e48b38d3d"),
   ("Subscription", "179364a1215e806481bffd675a74e97e"),
   ("Gym", "12e364a1215e81eea2fcc9acb982d790"),
   ("Travel", "12e364a1215e8083a389c6dbf7ef8dac"),
   ("Free Time", "12e364a1215e818e98d0e8abcdadf58c"),
   ("Necessities", "156364a1215e80dcbebddd89ba57b4ab"),
   ("Others", "12e364a1215e81999522f7421e1947f0"),
   ("Transaction", "156364a1215e80e380e6c328a7e5d2e4")]

/-- `INCOME_CATEGORY_IDS` of `src/notion/notion_utils.py` lines 43-49. -/
def INCOME_CATEGORY_IDS : List (String × String) :=
  [("Salary", "12e364a1215e81e9814ce231403b1207"),
   ("Parents", "12e364a1215e81ba8da4c0100297cdda"),
   ("Repaid", "136364a1215e80fab733eb38739b9a1d"),
   ("Transaction", "25a364a1215e800fad15f09941aa5e19"),
   ("Others", "12e364a1215e81acbb77f4e668d148d2")]

/-- The category-determination slice of `post_transaction_to_notion_internal`
(lines 237-248): for a currency outside USD/PLN the category is the fixed
"Travel" without consulting the classifier; otherwise the classifier is
invoked and its label looked up in the direction's identifier table with
`.get` (no fallback).  Returns (category_name, category_relation_id,
number of classifier invocations). -/
def resolveCategory (classify : String → Bool → String) (currency description : String)
    (is_income : Bool) : String × Option String × Nat :=
  if currency ∉ ["USD", "PLN"] then
    ("Travel", CATEGORY_IDS.lookup "Travel", 0)
  else
    let category_name := classify description is_income
    (category_name,
      if is_income then INCOME_CATEGORY_IDS.lookup category_name
      else CATEGORY_IDS.lookup category_name, 1)

/-- The category-field section of the properties construction (lines
280-283): the posted record carries a category relation exactly when a
relation identifier was found; otherwise the field is skipped. -/
def categoryFieldPresent (category_relation_id : Option String) : Bool :=
  category_relation_id.isSome

/-! ## Sync cycle (`main` of `src/revolut/notion_revolut_connector.py`) -/

/-- `CUTOFF_TIMESTAMP`: 2025-08-17 14:00:00 UTC in epoch seconds. -/
def CUTOFF_TIMESTAMP : Int := 1755439200

/-- `is_exchange_transaction` (lines 116-117). -/
def is_exchange_transaction (tx : Tx) : Bool :=
  strContains (lowerStr tx.description) "exchanged to" ||
  strContains (lowerStr tx.description) "exchanged from"

/-- `get_exchange_identifier` (lines 119-139): the identifier groups the two
feed rows of one exchange by normalized description and minute-truncated
timestamp; the source hashes this pair into a string, which is modelled by
the pair itself (Python's `hash` is not otherwise observable). -/
def get_exchange_identifier (tx : Tx) : String × Int :=
  (stripStr (lowerStr tx.description), tx.timestamp - tx.timestamp % 60)

/-- The per-run mutable state of `main`: the identifiers newly added this
run, the three summary counters, the processed-exchange set, and the list of
record-store create calls made, each as (transaction identifier, income
flag).  The leg payloads handed to `post_transaction_to_notion` (sign-forced
amount, parsed leg currency) do not affect any claim, so a create call is
recorded by identifier and direction only. -/
structure SyncState where
  newIds : List String
  successful : Nat
  failed : Nat
  skipped : Nat
  processed_exchanges : List (String × Int)
  posts : List (String × Bool)
deriving DecidableEq, Repr

def initSyncState : SyncState := ⟨[], 0, 0, 0, [], []⟩

/-- The body of the transaction loop of `main` (lines 177-257).  `store`
abstracts `post_transaction_to_notion`: the success of a create call for a
given identifier and direction.  Dedup consults only the ledger loaded at
the start of the run (`logged_tx_ids`), exactly as the source does. -/
def processTx (store : String → Bool → Bool) (logged_tx_ids : List String)
    (st : SyncState) (tx : Tx) : SyncState :=
  if tx.transaction_id ∈ logged_tx_ids then
    { st with skipped := st.skipped + 1 }
  else if tx.timestamp ≤ CUTOFF_TIMESTAMP then
    { st with skipped := st.skipped + 1 }
  else if is_exchange_transaction tx then
    let exchange_id := get_exchange_identifier tx
    if exchange_id ∈ st.processed_exchanges then
      { st with skipped := st.skipped + 1 }
    else
      let expense_success := store tx.transaction_id false
      let income_success := store tx.transaction_id true
      { st with
        processed_exchanges := exchange_id :: st.processed_exchanges
        posts := st.posts ++ [(tx.transaction_id, false), (tx.transaction_id, true)]
        successful := if income_success && expense_success then st.successful + 1
                      else st.successful
        failed := if income_success && expense_success then st.failed else st.failed + 1
        newIds := tx.transaction_id :: st.newIds }
  else
    let is_income := decide (0 ≤ tx.amount)
    let success := store tx.transaction_id is_income
    { st with
      posts := st.posts ++ [(tx.transaction_id, is_income)]
      successful := if success then st.successful + 1 else st.successful
      failed := if success then st.failed else st.failed + 1
      newIds := tx.transaction_id :: st.newIds }

/-- Per-account loop: only the first 10 transactions of the returned batch
are considered (`for tx in txns[:10]`, line 177). -/
def processAccount (store : String → Bool → Bool) (logged_tx_ids : List String)
    (st : SyncState) (txns : List Tx) : SyncState :=
  (txns.take 10).foldl (processTx store logged_tx_ids) st

/-- A whole sync run (`main`): fold all accounts, then save
`logged_tx_ids ∪ new_logged_tx_ids` (membership in the saved ledger is what
matters, so the union is modelled by appending).  Returns the final state
and the saved ledger. -/
def runSync (store : String → Bool → Bool) (logged_tx_ids : List String)
    (accounts : List (List Tx)) : SyncState × List String :=
  let final := accounts.foldl (processAccount store logged_tx_ids) initSyncState
  (final, logged_tx_ids ++ final.newIds)

/-- Number of record-store create calls carrying a given identifier. -/
def countPosts (id : String) (posts : List (String × Bool)) : Nat :=
  (posts.filter (fun p => p.1 == id)).length

/-! ## Helper lemmas -/

theorem rat_floor_eq_floor (x : Rat) : x.floor = ⌊x⌋ := rfl

/-- `quantize2` on a rational whose value times 100 is an integer. -/
theorem quantize2_int_mul (q : Rat) (n : Int) (h : q * 100 = (n : Rat)) :
    quantize2 q = (n : Rat) / 100 := by
  simp only [quantize2, h, rat_floor_eq_floor, Int.floor_intCast]
  norm_num

/-! ## C2: record-store outcome classification -/

/-- C2: for every post attempt, a 200 record-store response yields `true`
with no failure-queue entry; 429/500/502/503/504 yield `false` with a
"temporary" entry; 400/401/403/404/422 yield `false` with a "permanent"
entry; any other non-200 status yields `false` with an "unknown" entry. -/
theorem c2_status_classification (status : Nat) :
    (status = 200 → postOutcome status = (true, [])) ∧
    (status ∈ [429, 500, 502, 503, 504] →
      postOutcome status = (false, [⟨status, "temporary"⟩])) ∧
    (status ∈ [400, 401, 403, 404, 422] →
      postOutcome status = (false, [⟨status, "permanent"⟩])) ∧
    (status ≠ 200 → status ∉ [429, 500, 502, 503, 504] →
      status ∉ [400, 401, 403, 404, 422] →
      postOutcome status = (false, [⟨status, "unknown"⟩])) := by
  refine ⟨fun h => by subst h; rfl, fun h => ?_, fun h => ?_, fun h1 h2 h3 => ?_⟩
  · fin_cases h <;> rfl
  · fin_cases h <;> rfl
  · have ht : is_temporary_error status = false := by
      simpa [is_temporary_error] using h2
    have hp : is_permanent_error status = false := by
      simpa [is_permanent_error] using h3
    simp [postOutcome, h1, ht, hp]

/-- Witness for C2 at statuses 200, 503, 404 and 418. -/
theorem c2_status_classification_witness :
    postOutcome 200 = (true, []) ∧
    postOutcome 503 = (false, [⟨503, "temporary"⟩]) ∧
    postOutcome 404 = (false, [⟨404, "permanent"⟩]) ∧
    postOutcome 418 = (false, [⟨418, "unknown"⟩]) :=
  ⟨(c2_status_classification 200).1 rfl,
   (c2_status_classification 503).2.1 (by decide),
   (c2_status_classification 404).2.2.1 (by decide),
   (c2_status_classification 418).2.2.2 (by decide) (by decide) (by decide)⟩

/-! ## C6: cache precedence in the currency normalizer -/

/-- C6: whenever the rate cache holds an entry for (currency, date) and the
currency is not the base currency, `convert_to_usd` returns the amount
multiplied by exactly the cached rate rounded to 2 decimal places, leaves
the state untouched, and makes zero remote-service invocations — whatever
the remote service would have answered. -/
theorem c6_cache_precedence (api : Option Rat) (st : ExchangeState)
    (amount cached_rate : Rat) (currency date : String)
    (hc : currency ≠ "USD")
    (hit : st.cache.lookup (get_cache_key currency date) = some cached_rate) :
    convert_to_usd api st amount currency date
      = (quantize2 (amount * cached_rate), st, 0) := by
  simp [convert_to_usd, hc, hit]

/-- Witness for C6: 100 EUR at a cached rate of 1.10 gives 110.00 USD with
no remote invocation, regardless of a differing remote answer. -/
theorem c6_cache_precedence_witness :
    (100 : Rat) * (11/10) = 110 ∧
    convert_to_usd (some 999) ⟨[("EUR_2024-01-15", 11/10)], FALLBACK_RATES⟩
        100 "EUR" "2024-01-15"
      = (110, ⟨[("EUR_2024-01-15", 11/10)], FALLBACK_RATES⟩, 0) := by
  refine ⟨by norm_num, ?_⟩
  rw [c6_cache_precedence (some 999) ⟨[("EUR_2024-01-15", 11/10)], FALLBACK_RATES⟩
    100 (11/10) "EUR" "2024-01-15" (by decide) rfl]
  rw [quantize2_int_mul (100 * (11/10)) 11000 (by norm_num)]
  norm_num

/-! ## C7: degradation to fallback rates, then passthrough -/

/-- C7: when the rate is not cached and the remote lookup fails after its
retries (`api = none`), `convert_to_usd` still returns a value (the Lean
embedding is a total function, matching the source's catch-all except): the
amount times the fallback rate rounded to 2 decimals when the currency has a
fallback entry, and the amount unchanged when it has none. -/
theorem c7_fallback_passthrough (st : ExchangeState) (amount : Rat)
    (currency date : String) (hc : currency ≠ "USD")
    (hmiss : st.cache.lookup (get_cache_key currency date) = none) :
    (∀ fallback_rate, st.fallback.lookup currency = some fallback_rate →
      convert_to_usd none st amount currency date
        = (quantize2 (amount * fallback_rate), st, 1)) ∧
    (st.fallback.lookup currency = none →
      convert_to_usd none st amount currency date = (amount, st, 1)) := by
  constructor
  · intro fallback_rate hf
    simp [convert_to_usd, hc, hmiss, hf]
  · intro hf
    simp [convert_to_usd, hc, hmiss, hf]

/-- Witness for C7: with an empty cache and a failing remote source, 100 PLN
converts with the 0.25 fallback rate to 25.00 USD, and 100 of an unlisted
currency passes through unchanged. -/
theorem c7_fallback_passthrough_witness :
    convert_to_usd none ⟨[], FALLBACK_RATES⟩ 100 "PLN" "2025-01-01"
      = (25, ⟨[], FALLBACK_RATES⟩, 1) ∧
    convert_to_usd none ⟨[], FALLBACK_RATES⟩ 100 "XYZ" "2025-01-01"
      = (100, ⟨[], FALLBACK_RATES⟩, 1) := by
  constructor
  · rw [(c7_fallback_passthrough ⟨[], FALLBACK_RATES⟩ 100 "PLN" "2025-01-01"
      (by decide) rfl).1 (25/100) rfl]
    rw [quantize2_int_mul (100 * (25/100)) 2500 (by norm_num)]
    norm_num
  · exact (c7_fallback_passthrough ⟨[], FALLBACK_RATES⟩ 100 "XYZ" "2025-01-01"
      (by decide) rfl).2 rfl

/-! ## C8: the fallback table is not static -/

/-- Counterexample to C8 as stated: a call to `convert_to_usd` whose remote
fetch succeeds overwrites the fallback entry for the converted currency
(`FALLBACK_RATES[currency] = float(rate)` in the source), here changing the
PLN fallback from 0.25 to the fetched 0.26. -/
theorem c8_counterexample :
    FALLBACK_RATES.lookup "PLN" = some (25/100) ∧
    (convert_to_usd (some (26/100)) ⟨[], FALLBACK_RATES⟩ 100 "PLN"
        "2025-01-01").2.1.fallback.lookup "PLN" = some (26/100) ∧
    (26 : Rat)/100 ≠ 25/100 := by
  refine ⟨rfl, rfl, by norm_num⟩

/-- C8 amended: the fallback table is unchanged by every call that converts
the base currency, hits the cache, or whose remote lookup fails; a call
whose remote lookup succeeds on a cache miss overwrites the fallback entry
for that currency with the freshly fetched rate. -/
theorem c8_fallback_frame (api : Option Rat) (st : ExchangeState) (amount : Rat)
    (currency date : String) :
    (currency = "USD" →
      (convert_to_usd api st amount currency date).2.1 = st) ∧
    (∀ cached_rate, st.cache.lookup (get_cache_key currency date) = some cached_rate →
      (convert_to_usd api st amount currency date).2.1 = st) ∧
    (api = none →
      (convert_to_usd api st amount currency date).2.1.fallback = st.fallback) ∧
    (∀ rate, currency ≠ "USD" →
      st.cache.lookup (get_cache_key currency date) = none →
      api = some rate →
      (convert_to_usd api st amount currency date).2.1.fallback
        = (currency, rate) :: st.fallback) := by
  refine ⟨fun h => by simp [convert_to_usd, h], fun r hr => ?_, fun h => ?_, fun r hc hm ha => ?_⟩
  · by_cases h : currency = "USD"
    · simp [convert_to_usd, h]
    · simp [convert_to_usd, h, hr]
  · subst h
    by_cases h : currency = "USD"
    · simp [convert_to_usd, h]
    · cases hm : st.cache.lookup (get_cache_key currency date) with
      | none =>
        cases hf : st.fallback.lookup currency with
        | none => simp [convert_to_usd, hm, hf, h]
        | some fr => simp [convert_to_usd, hm, hf, h]
      | some r => simp [convert_to_usd, hm, h]
  · subst ha
    simp [convert_to_usd, hc, hm]

/-- Witness for C8 amended, covering all four conjuncts at concrete inputs. -/
theorem c8_fallback_frame_witness :
    (convert_to_usd none ⟨[], FALLBACK_RATES⟩ 7 "USD" "2025-01-01").2.1
      = ⟨[], FALLBACK_RATES⟩ ∧
    (convert_to_usd none ⟨[("EUR_2025-01-01", 2)], []⟩ 7 "EUR" "2025-01-01").2.1
      = ⟨[("EUR_2025-01-01", 2)], []⟩ ∧
    (convert_to_usd none ⟨[], FALLBACK_RATES⟩ 7 "EUR" "2025-01-01").2.1.fallback
      = FALLBACK_RATES ∧
    (convert_to_usd (some 2) ⟨[], []⟩ 7 "EUR" "2025-01-01").2.1.fallback
      = [("EUR", 2)] :=
  ⟨(c8_fallback_frame none ⟨[], FALLBACK_RATES⟩ 7 "USD" "2025-01-01").1 rfl,
   (c8_fallback_frame none ⟨[("EUR_2025-01-01", 2)], []⟩ 7 "EUR" "2025-01-01").2.1
     2 rfl,
   (c8_fallback_frame none ⟨[], FALLBACK_RATES⟩ 7 "EUR" "2025-01-01").2.2.1 rfl,
   (c8_fallback_frame (some 2) ⟨[], []⟩ 7 "EUR" "2025-01-01").2.2.2
     2 (by decide) rfl rfl⟩

/-! ## C4: the classifier is consulted only for USD/PLN transactions -/

/-- Counterexample to C4 as stated: for a transaction in a currency outside
USD and PLN (here HUF) the orchestrator fixes the category to "Travel" and
performs zero classifier invocations, so the category is not resolved by
invoking the keyword/similarity classifier. -/
theorem c4_counterexample :
    (resolveCategory (categorize_transaction [] [] (fun _ _ => DEFAULT_CATEGORY))
        "HUF" "Hotel Budapest" false).2.2 = 0 ∧
    (resolveCategory (categorize_transaction [] [] (fun _ _ => DEFAULT_CATEGORY))
        "HUF" "Hotel Budapest" false).1 = "Travel" :=
  ⟨rfl, rfl⟩

/-- C4 amended: the orchestrator resolves the category through the
classifier exactly when the transaction currency is USD or PLN; for every
other currency it assigns the fixed label "Travel" with zero classifier
invocations. -/
theorem c4_classifier_gated_by_currency (classify : String → Bool → String)
    (currency description : String) (is_income : Bool) :
    (currency = "USD" ∨ currency = "PLN" →
      resolveCategory classify currency description is_income
        = (classify description is_income,
           if is_income then INCOME_CATEGORY_IDS.lookup (classify description is_income)
           else CATEGORY_IDS.lookup (classify description is_income), 1)) ∧
    (currency ≠ "USD" → currency ≠ "PLN" →
      resolveCategory classify currency description is_income
        = ("Travel", CATEGORY_IDS.lookup "Travel", 0)) := by
  constructor
  · intro h
    have hmem : currency ∈ ["USD", "PLN"] := by
      rcases h with h | h <;> simp [h]
    simp [resolveCategory, hmem]
  · intro h1 h2
    have hmem : currency ∉ ["USD", "PLN"] := by simp [h1, h2]
    simp [resolveCategory, hmem]

/-- Witness for C4 amended: one USD expense going through the classifier,
one EUR expense bypassing it. -/
theorem c4_classifier_gated_by_currency_witness :
    resolveCategory (fun _ _ => "Food") "USD" "burger" false
      = ("Food", some "12e364a1215e8144817beb04c569ea05", 1) ∧
    resolveCategory (fun _ _ => "Food") "EUR" "burger" false
      = ("Travel", some "12e364a1215e8083a389c6dbf7ef8dac", 0) := by
  constructor
  · rw [(c4_classifier_gated_by_currency (fun _ _ => "Food") "USD" "burger" false).1
      (Or.inl rfl)]
    rfl
  · rw [(c4_classifier_gated_by_currency (fun _ _ => "Food") "EUR" "burger" false).2
      (by decide) (by decide)]
    rfl

/-! ## C5: no fallback to the default category identifier -/

/-- Counterexample to C5 as stated: the classifier returns "Transfer" for a
transfer-marked description, "Transfer" has no entry in `CATEGORY_IDS`, and
the orchestrator then omits the category relation field instead of falling
back to the default category identifier — even though the default ("Others")
has a mapped identifier. -/
theorem c5_counterexample :
    categorize_transaction [] [] (fun _ _ => DEFAULT_CATEGORY) "Transfer to friend" false
      = "Transfer" ∧
    (resolveCategory (categorize_transaction [] [] (fun _ _ => DEFAULT_CATEGORY))
        "USD" "Transfer to friend" false).2.1 = none ∧
    categoryFieldPresent
      (resolveCategory (categorize_transaction [] [] (fun _ _ => DEFAULT_CATEGORY))
        "USD" "Transfer to friend" false).2.1 = false ∧
    CATEGORY_IDS.lookup "Others" = some "12e364a1215e81999522f7421e1947f0" := by
  refine ⟨by decide, by decide, by decide, rfl⟩

/-- C5 amended: the category relation identifier is exactly the lookup of
the resolved label in the direction's identifier table (always the expense
table for the fixed "Travel" of non-USD/PLN currencies); when that lookup
fails nothing is substituted and the posted record omits the category
relation field. -/
theorem c5_no_default_fallback (classify : String → Bool → String)
    (currency description : String) (is_income : Bool) :
    (resolveCategory classify currency description is_income).2.1
      = (if is_income ∧ currency ∈ ["USD", "PLN"] then INCOME_CATEGORY_IDS
         else CATEGORY_IDS).lookup
          (resolveCategory classify currency description is_income).1 ∧
    ((resolveCategory classify currency description is_income).2.1 = none →
      categoryFieldPresent
        (resolveCategory classify currency description is_income).2.1 = false) := by
  constructor
  · by_cases hmem : currency ∈ ["USD", "PLN"]
    · by_cases hinc : is_income
      · simp [resolveCategory, hmem, hinc]
      · simp [resolveCategory, hmem, hinc]
    · simp [resolveCategory, hmem]
  · intro h
    simp [categoryFieldPresent, h]

/-- Witness for C5 amended at the unmapped-"Transfer" input. -/
theorem c5_no_default_fallback_witness :
    categoryFieldPresent
      (resolveCategory (categorize_transaction [] [] (fun _ _ => DEFAULT_CATEGORY))
        "USD" "Transfer to friend" false).2.1 = false :=
  (c5_no_default_fallback (categorize_transaction [] [] (fun _ _ => DEFAULT_CATEGORY))
    "USD" "Transfer to friend" false).2 (by decide)

/-! ## C3: the failure-queue retry pass -/

/-- The per-entry outcome of a retry pass: a permanent entry is kept as it
is without a post attempt; a retried entry is dropped on success and kept
with `retry_count` bumped and `last_retry` set on failure. -/
def retryOutcome (post : Tx → String → Bool → Bool) (now : Int)
    (failed_tx : FailedTx) : Option FailedTx :=
  if failed_tx.error_type = "permanent" then some failed_tx
  else if post failed_tx.transaction failed_tx.account failed_tx.is_income then none
  else some { failed_tx with
                retry_count := failed_tx.retry_count + 1,
                last_retry := some now }

theorem retry_foldl (post : Tx → String → Bool → Bool) (now : Int)
    (q : List FailedTx) : ∀ (acc : List FailedTx × Nat),
    q.foldl (retryStep post now) acc
      = (acc.1 ++ q.filterMap (retryOutcome post now),
         acc.2 + (q.filter (fun f => ! (f.error_type == "permanent"))).length) := by
  induction q with
  | nil => intro acc; simp
  | cons f rest ih =>
    intro acc
    rw [List.foldl_cons, ih]
    by_cases hp : f.error_type = "permanent"
    · simp [retryStep, retryOutcome, hp]
    · by_cases hpost : post f.transaction f.account f.is_income
      · refine Prod.ext ?_ ?_
        · simp [retryStep, retryOutcome, hp, hpost]
        · simp [retryStep, retryOutcome, hp, hpost]; omega
      · refine Prod.ext ?_ ?_
        · simp [retryStep, retryOutcome, hp, hpost]
        · simp [retryStep, retryOutcome, hp, hpost]; omega

theorem filterMap_retryOutcome_all_succeed (post : Tx → String → Bool → Bool)
    (now : Int) (q : List FailedTx)
    (hall : ∀ f ∈ q, f.error_type ≠ "permanent" →
      post f.transaction f.account f.is_income = true) :
    q.filterMap (retryOutcome post now)
      = q.filter (fun f => f.error_type == "permanent") := by
  induction q with
  | nil => simp
  | cons f rest ih =>
    have hf := hall f (List.mem_cons_self f rest)
    have hrest : ∀ g ∈ rest, g.error_type ≠ "permanent" →
        post g.transaction g.account g.is_income = true :=
      fun g hg => hall g (List.mem_cons_of_mem f hg)
    by_cases hp : f.error_type = "permanent"
    · simp [retryOutcome, hp, ih hrest]
    · simp [retryOutcome, hp, hf hp, ih hrest]

/-- C3: a retry pass invokes the posting step exactly once per non-terminal
("permanent") entry and never for terminal ones; each retried entry is
dropped on success and kept with `retry_count` incremented and `last_retry`
updated on repeat failure; the queue is rewritten to exactly the
still-failing entries, so when every non-terminal retry succeeds exactly the
terminal entries remain, unchanged and in order. -/
theorem c3_retry_pass (post : Tx → String → Bool → Bool) (now : Int)
    (failed_txs : List FailedTx) :
    (retry_failed_transactions post now failed_txs).2
      = (failed_txs.filter (fun f => ! (f.error_type == "permanent"))).length ∧
    (retry_failed_transactions post now failed_txs).1
      = failed_txs.filterMap (retryOutcome post now) ∧
    ((∀ f ∈ failed_txs, f.error_type ≠ "permanent" →
        post f.transaction f.account f.is_income = true) →
      (retry_failed_transactions post now failed_txs).1
        = failed_txs.filter (fun f => f.error_type == "permanent")) := by
  refine ⟨?_, ?_, fun hall => ?_⟩
  · rw [retry_failed_transactions, retry_foldl]; simp
  · rw [retry_failed_transactions, retry_foldl]; simp
  · rw [retry_failed_transactions, retry_foldl]
    simp [filterMap_retryOutcome_all_succeed post now failed_txs hall]

/-- Witness for C3: a two-entry queue (one permanent, one temporary) with an
always-succeeding post makes exactly one post call and keeps exactly the
permanent entry, unchanged. -/
theorem c3_retry_pass_witness :
    (retry_failed_transactions (fun _ _ _ => true) 0
        [⟨⟨"a", 1, "USD", "d", 0⟩, "acc", false, "permanent", 0, none⟩,
         ⟨⟨"b", 1, "USD", "d", 0⟩, "acc", false, "temporary", 0, none⟩]).2 = 1 ∧
    (retry_failed_transactions (fun _ _ _ => true) 0
        [⟨⟨"a", 1, "USD", "d", 0⟩, "acc", false, "permanent", 0, none⟩,
         ⟨⟨"b", 1, "USD", "d", 0⟩, "acc", false, "temporary", 0, none⟩]).1
      = [⟨⟨"a", 1, "USD", "d", 0⟩, "acc", false, "permanent", 0, none⟩] := by
  have h := c3_retry_pass (fun _ _ _ => true) 0
    [⟨⟨"a", 1, "USD", "d", 0⟩, "acc", false, "permanent", 0, none⟩,
     ⟨⟨"b", 1, "USD", "d", 0⟩, "acc", false, "temporary", 0, none⟩]
  exact ⟨by rw [h.1]; rfl, by rw [h.2.2 (fun f hf hne => rfl)]; rfl⟩

/-! ## C9: retry-with-backoff policy -/

theorem retryLoop_attempts_le (retryable : ReqResult → Bool) (op : Nat → ReqResult) :
    ∀ (fuel attempt : Nat), (retryLoop retryable op attempt fuel).2.1 ≤ fuel := by
  intro fuel
  induction fuel with
  | zero => intro attempt; simp [retryLoop]
  | succ f ih =>
    intro attempt
    rcases hop : op attempt with _ | _ | _ | s | _ | _ <;>
      simp only [retryLoop, hop]
    all_goals
      first
      | exact Nat.succ_le_succ (Nat.zero_le f)
      | (split
         · exact Nat.succ_le_succ (ih (attempt + 1))
         · exact Nat.succ_le_succ (Nat.zero_le f))

theorem retryLoop_attempts_pos (retryable : ReqResult → Bool) (op : Nat → ReqResult)
    (fuel attempt : Nat) : 0 < (retryLoop retryable op attempt (fuel + 1)).2.1 := by
  rcases hop : op attempt with _ | _ | _ | s | _ | _ <;>
    simp only [retryLoop, hop] <;>
    first
    | exact Nat.zero_lt_one
    | (split
       · exact Nat.succ_pos _
       · exact Nat.zero_lt_one)

theorem retryLoop_sleeps (retryable : ReqResult → Bool) (op : Nat → ReqResult) :
    ∀ (fuel attempt : Nat),
      (retryLoop retryable op attempt fuel).2.2
        = (List.range ((retryLoop retryable op attempt fuel).2.1 - 1)).map
            (fun i => BASE_DELAY * 2 ^ (attempt + i)) := by
  intro fuel
  induction fuel with
  | zero => intro attempt; simp [retryLoop]
  | succ f ih =>
    intro attempt
    rcases hop : op attempt with _ | _ | _ | s | _ | _ <;>
      simp only [retryLoop, hop]
    case success => simp
    all_goals
      split
      case isTrue h =>
        have hcond : 0 < f := by
          rcases Bool.and_eq_true _ _ |>.mp h with ⟨_, h2⟩
          exact of_decide_eq_true h2
        cases hf : f with
        | zero => omega
        | succ f0 =>
          subst hf
          have hpos := retryLoop_attempts_pos retryable op f0 (attempt + 1)
          cases hres : (retryLoop retryable op (attempt + 1) (f0 + 1)).2.1 with
          | zero => omega
          | succ m =>
            have ihh := ih (attempt + 1)
            rw [hres] at ihh
            simp only [Nat.succ_sub_one] at ihh ⊢
            rw [ihh, List.range_succ_eq_map, List.map_cons, List.map_map]
            have hadd : ∀ i : Nat, attempt + 1 + i = attempt + Nat.succ i := by omega
            simp [Function.comp, hadd]
      case isFalse h => simp

theorem retryLoop_abort (retryable : ReqResult → Bool) (op : Nat → ReqResult)
    (fuel : Nat) (h1 : op 0 ≠ ReqResult.success) (h2 : retryable (op 0) = false) :
    (retryLoop retryable op 0 (fuel + 1)).2.1 = 1 := by
  rcases hop : op 0 with _ | _ | _ | s | _ | _
  · exact absurd hop h1
  all_goals rw [hop] at h2; simp [retryLoop, hop, h2]

/-- Counterexample to C9 as stated: the exchange-rate retry wrapper retries
an HTTP 503 server error — which is neither a timeout nor a connection-class
error — making all 3 attempts (sleeping 1 then 2 units) instead of aborting
after the first. -/
theorem c9_counterexample :
    notionRetryable (ReqResult.httpError 503) = false ∧
    ReqResult.httpError 503 ≠ ReqResult.timeout ∧
    ReqResult.httpError 503 ≠ ReqResult.connError ∧
    (api_request_with_retry (fun _ => ReqResult.httpError 503)).2.1 = 3 ∧
    (api_request_with_retry (fun _ => ReqResult.httpError 503)).2.2 = [1, 2] := by
  decide

/-- C9 amended: both wrappers make at most 3 attempts, sleeping between
successive attempts with delays doubling from the 1-unit base
(`BASE_DELAY * 2 ^ attempt`, so 1 then 2; the 4-unit delay of the schedule
is never slept because no fourth attempt exists).  The Notion wrapper
retries only timeout and connection-class errors and aborts immediately on
any other error; the exchange-rate wrapper additionally retries HTTP server
errors (status ≥ 500) and aborts immediately on everything else. -/
theorem c9_retry_policy (op : Nat → ReqResult) :
    ((retry_with_backoff op).2.1 ≤ MAX_RETRIES ∧
     (api_request_with_retry op).2.1 ≤ MAX_RETRIES) ∧
    ((retry_with_backoff op).2.2
        = (List.range ((retry_with_backoff op).2.1 - 1)).map
            (fun i => BASE_DELAY * 2 ^ i) ∧
     (api_request_with_retry op).2.2
        = (List.range ((api_request_with_retry op).2.1 - 1)).map
            (fun i => BASE_DELAY * 2 ^ i)) ∧
    (∀ r, notionRetryable r = true ↔ r = ReqResult.timeout ∨ r = ReqResult.connError) ∧
    (∀ r, apiRetryable r = true ↔ r = ReqResult.timeout ∨ r = ReqResult.connError ∨
      ∃ s, r = ReqResult.httpError s ∧ 500 ≤ s) ∧
    (op 0 ≠ ReqResult.success → notionRetryable (op 0) = false →
      (retry_with_backoff op).2.1 = 1) ∧
    (op 0 ≠ ReqResult.success → apiRetryable (op 0) = false →
      (api_request_with_retry op).2.1 = 1) := by
  refine ⟨⟨retryLoop_attempts_le _ op MAX_RETRIES 0, retryLoop_attempts_le _ op MAX_RETRIES 0⟩,
    ⟨?_, ?_⟩, fun r => ?_, fun r => ?_,
    fun h1 h2 => retryLoop_abort _ op 2 h1 h2,
    fun h1 h2 => retryLoop_abort _ op 2 h1 h2⟩
  · have h := retryLoop_sleeps notionRetryable op MAX_RETRIES 0
    simpa [retry_with_backoff] using h
  · have h := retryLoop_sleeps apiRetryable op MAX_RETRIES 0
    simpa [api_request_with_retry] using h
  · cases r <;> simp [notionRetryable]
  · cases r <;> simp [apiRetryable]

/-- Witness for C9 amended: immediate abort of both wrappers on
non-retryable errors, and the 1-then-2 sleep schedule of a
timeout-exhausting run. -/
theorem c9_retry_policy_witness :
    (retry_with_backoff (fun _ => ReqResult.reqError)).2.1 = 1 ∧
    (api_request_with_retry (fun _ => ReqResult.httpError 404)).2.1 = 1 ∧
    (retry_with_backoff (fun _ => ReqResult.timeout)).2.2 = [1, 2] := by
  refine ⟨(c9_retry_policy (fun _ => ReqResult.reqError)).2.2.2.2.1 (by decide) (by decide),
          (c9_retry_policy (fun _ => ReqResult.httpError 404)).2.2.2.2.2 (by decide) (by decide),
          ?_⟩
  rw [(c9_retry_policy (fun _ => ReqResult.timeout)).2.1.1]
  decide

/-! ## Sync-loop lemmas -/

theorem processTx_skip_of_logged (store : String → Bool → Bool)
    (logged_tx_ids : List String) (st : SyncState) (tx : Tx)
    (h : tx.transaction_id ∈ logged_tx_ids) :
    processTx store logged_tx_ids st tx = { st with skipped := st.skipped + 1 } := by
  simp [processTx, h]

theorem processTx_regular (store : String → Bool → Bool) (logged_tx_ids : List String)
    (st : SyncState) (tx : Tx)
    (h1 : tx.transaction_id ∉ logged_tx_ids)
    (h2 : ¬ tx.timestamp ≤ CUTOFF_TIMESTAMP)
    (h3 : is_exchange_transaction tx = false) :
    processTx store logged_tx_ids st tx
      = { st with
          posts := st.posts ++ [(tx.transaction_id, decide (0 ≤ tx.amount))]
          successful := if store tx.transaction_id (decide (0 ≤ tx.amount))
                        then st.successful + 1 else st.successful
          failed := if store tx.transaction_id (decide (0 ≤ tx.amount))
                    then st.failed else st.failed + 1
          newIds := tx.transaction_id :: st.newIds } := by
  simp [processTx, h1, h2, h3]

/-- Each step either leaves posts and newIds untouched (the three skip
branches) or appends create calls for `tx`'s identifier and records that
identifier as newly logged (the exchange and regular branches). -/
theorem processTx_shape (store : String → Bool → Bool) (logged_tx_ids : List String)
    (st : SyncState) (tx : Tx) :
    ((processTx store logged_tx_ids st tx).posts = st.posts ∧
     (processTx store logged_tx_ids st tx).newIds = st.newIds) ∨
    (∃ legs : List Bool,
     (processTx store logged_tx_ids st tx).posts
        = st.posts ++ legs.map (fun b => (tx.transaction_id, b)) ∧
     (processTx store logged_tx_ids st tx).newIds
        = tx.transaction_id :: st.newIds) := by
  by_cases h1 : tx.transaction_id ∈ logged_tx_ids
  · left; constructor <;> simp [processTx, h1]
  by_cases h2 : tx.timestamp ≤ CUTOFF_TIMESTAMP
  · left; constructor <;> simp [processTx, h1, h2]
  by_cases h3 : is_exchange_transaction tx
  · by_cases h4 : get_exchange_identifier tx ∈ st.processed_exchanges
    · left; constructor <;> simp [processTx, h1, h2, h3, h4]
    · right
      exact ⟨[false, true], by simp [processTx, h1, h2, h3, h4],
             by simp [processTx, h1, h2, h3, h4]⟩
  · right
    exact ⟨[decide (0 ≤ tx.amount)], by simp [processTx, h1, h2, h3],
           by simp [processTx, h1, h2, h3]⟩

theorem countPosts_append (id : String) (l1 l2 : List (String × Bool)) :
    countPosts id (l1 ++ l2) = countPosts id l1 + countPosts id l2 := by
  simp [countPosts, List.filter_append]

theorem countPosts_map_ne (id tid : String) (legs : List Bool) (h : tid ≠ id) :
    countPosts id (legs.map (fun b => (tid, b))) = 0 := by
  induction legs with
  | nil => rfl
  | cons b rest ih =>
    simpa [countPosts, List.filter_cons, beq_eq_false_iff_ne.mpr h] using ih

theorem processTx_count_ne (store : String → Bool → Bool) (logged_tx_ids : List String)
    (id : String) (st : SyncState) (tx : Tx) (h : tx.transaction_id ≠ id) :
    countPosts id (processTx store logged_tx_ids st tx).posts
      = countPosts id st.posts := by
  rcases processTx_shape store logged_tx_ids st tx with ⟨hp, _⟩ | ⟨legs, hp, _⟩
  · rw [hp]
  · rw [hp, countPosts_append, countPosts_map_ne id _ legs h, Nat.add_zero]

theorem processTx_count_regular (store : String → Bool → Bool)
    (logged_tx_ids : List String) (st : SyncState) (tx : Tx)
    (h1 : tx.transaction_id ∉ logged_tx_ids)
    (h2 : ¬ tx.timestamp ≤ CUTOFF_TIMESTAMP)
    (h3 : is_exchange_transaction tx = false) :
    countPosts tx.transaction_id (processTx store logged_tx_ids st tx).posts
      = countPosts tx.transaction_id st.posts + 1 ∧
    tx.transaction_id ∈ (processTx store logged_tx_ids st tx).newIds := by
  rw [processTx_regular store logged_tx_ids st tx h1 h2 h3]
  constructor
  · simp [countPosts_append, countPosts]
  · simp

theorem fold_count_skip (store : String → Bool → Bool) (logged_tx_ids : List String)
    (id : String) (L : List Tx) : ∀ st : SyncState,
    (∀ t ∈ L, t.transaction_id = id → t.transaction_id ∈ logged_tx_ids) →
    countPosts id ((L.foldl (processTx store logged_tx_ids) st)).posts
      = countPosts id st.posts := by
  induction L with
  | nil => intro st _; rfl
  | cons t rest ih =>
    intro st hall
    rw [List.foldl_cons, ih _ (fun u hu => hall u (List.mem_cons_of_mem t hu))]
    by_cases he : t.transaction_id = id
    · rw [processTx_skip_of_logged store logged_tx_ids st t
        (hall t (List.mem_cons_self t rest) he)]
    · exact processTx_count_ne store logged_tx_ids id st t he

theorem processTx_newIds_mono (store : String → Bool → Bool)
    (logged_tx_ids : List String) (st : SyncState) (tx : Tx) (a : String)
    (h : a ∈ st.newIds) : a ∈ (processTx store logged_tx_ids st tx).newIds := by
  rcases processTx_shape store logged_tx_ids st tx with ⟨_, hn⟩ | ⟨legs, _, hn⟩
  · rw [hn]; exact h
  · rw [hn]; exact List.mem_cons_of_mem _ h

theorem fold_newIds_mono (store : String → Bool → Bool) (logged_tx_ids : List String)
    (L : List Tx) : ∀ (st : SyncState) (a : String), a ∈ st.newIds →
    a ∈ (L.foldl (processTx store logged_tx_ids) st).newIds := by
  induction L with
  | nil => intro st a h; exact h
  | cons t rest ih =>
    intro st a h
    exact ih _ a (processTx_newIds_mono store logged_tx_ids st t a h)

theorem processTx_newIds_sub (store : String → Bool → Bool)
    (logged_tx_ids : List String) (st : SyncState) (tx : Tx) (a : String)
    (h : a ∈ (processTx store logged_tx_ids st tx).newIds) :
    a = tx.transaction_id ∨ a ∈ st.newIds := by
  rcases processTx_shape store logged_tx_ids st tx with ⟨_, hn⟩ | ⟨legs, _, hn⟩
  · rw [hn] at h; exact Or.inr h
  · rw [hn] at h; exact List.mem_cons.mp h

theorem fold_newIds_sub (store : String → Bool → Bool) (logged_tx_ids : List String)
    (L : List Tx) : ∀ (st : SyncState) (a : String),
    a ∈ (L.foldl (processTx store logged_tx_ids) st).newIds →
    a ∈ st.newIds ∨ ∃ t ∈ L, a = t.transaction_id := by
  induction L with
  | nil => intro st a h; exact Or.inl h
  | cons t rest ih =>
    intro st a h
    rcases ih _ a h with h1 | ⟨u, hu, ha⟩
    · rcases processTx_newIds_sub store logged_tx_ids st t a h1 with ha | h2
      · exact Or.inr ⟨t, List.mem_cons_self t rest, ha⟩
      · exact Or.inl h2
    · exact Or.inr ⟨u, List.mem_cons_of_mem t hu, ha⟩

theorem processTx_posts_inv (store : String → Bool → Bool)
    (logged_tx_ids : List String) (st : SyncState) (tx : Tx)
    (h : ∀ p ∈ st.posts, p.1 ∈ st.newIds) :
    ∀ p ∈ (processTx store logged_tx_ids st tx).posts,
      p.1 ∈ (processTx store logged_tx_ids st tx).newIds := by
  rcases processTx_shape store logged_tx_ids st tx with ⟨hp, hn⟩ | ⟨legs, hp, hn⟩
  · rw [hp, hn]; exact h
  · rw [hp, hn]
    intro p hp'
    rcases List.mem_append.mp hp' with hmem | hmem
    · exact List.mem_cons_of_mem _ (h p hmem)
    · rcases List.mem_map.mp hmem with ⟨b, _, rfl⟩
      exact List.mem_cons_self _ _

theorem fold_posts_inv (store : String → Bool → Bool) (logged_tx_ids : List String)
    (L : List Tx) : ∀ st : SyncState,
    (∀ p ∈ st.posts, p.1 ∈ st.newIds) →
    ∀ p ∈ (L.foldl (processTx store logged_tx_ids) st).posts,
      p.1 ∈ (L.foldl (processTx store logged_tx_ids) st).newIds := by
  induction L with
  | nil => intro st h; exact h
  | cons t rest ih =>
    intro st h
    exact ih _ (processTx_posts_inv store logged_tx_ids st t h)

theorem foldAccounts_posts_inv (store : String → Bool → Bool)
    (logged_tx_ids : List String) (accounts : List (List Tx)) :
    ∀ st : SyncState,
    (∀ p ∈ st.posts, p.1 ∈ st.newIds) →
    ∀ p ∈ (accounts.foldl (processAccount store logged_tx_ids) st).posts,
      p.1 ∈ (accounts.foldl (processAccount store logged_tx_ids) st).newIds := by
  induction accounts with
  | nil => intro st h; exact h
  | cons a rest ih =>
    intro st h
    exact ih _ (fold_posts_inv store logged_tx_ids (a.take 10) st h)

/-! ## C1: dedup ledger and pipeline idempotency -/

/-- Counterexample to C1 as stated: an exchange-marked candidate transaction
is posted as two linked records (an expense leg and an income leg), so
pushing its identifier through the full pipeline twice yields two
record-store create calls, not exactly one. -/
theorem c1_counterexample :
    countPosts "tx1" (runSync (fun _ _ => true) []
        [[⟨"tx1", -100, "PLN", "Exchanged from PLN to EUR", 1755439300⟩]]).1.posts
      + countPosts "tx1" (runSync (fun _ _ => true)
          ((runSync (fun _ _ => true) []
            [[⟨"tx1", -100, "PLN", "Exchanged from PLN to EUR", 1755439300⟩]]).2)
          [[⟨"tx1", -100, "PLN", "Exchanged from PLN to EUR", 1755439300⟩]]).1.posts
      = 2 ∧
    (2 : Nat) ≠ 1 := by
  exact ⟨by decide, by decide⟩

/-- C1 amended: an identifier already in the loaded ledger makes the run
skip the transaction (skip counter incremented, nothing else changed, in
particular no posting); every identifier carried by a create call of the run
is in the ledger saved at the end; and for a non-exchange candidate
transaction whose identifier occurs once in the considered batch, pushing it
through the full pipeline twice yields exactly one record-store create call
(one in the first run, none in the second; an exchange candidate instead
yields one call per leg, still only in the first run). -/
theorem c1_dedup_pipeline :
    (∀ (store : String → Bool → Bool) (logged_tx_ids : List String)
       (st : SyncState) (tx : Tx),
      tx.transaction_id ∈ logged_tx_ids →
        processTx store logged_tx_ids st tx
          = { st with skipped := st.skipped + 1 }) ∧
    (∀ (store : String → Bool → Bool) (logged_tx_ids : List String)
       (accounts : List (List Tx)),
      ∀ p ∈ (runSync store logged_tx_ids accounts).1.posts,
        p.1 ∈ (runSync store logged_tx_ids accounts).2) ∧
    (∀ (store1 store2 : String → Bool → Bool) (logged_tx_ids : List String)
       (txns : List Tx) (tx : Tx),
      tx ∈ txns.take 10 →
      ((txns.take 10).filter
          (fun t => t.transaction_id == tx.transaction_id)).length = 1 →
      is_exchange_transaction tx = false →
      ¬ tx.timestamp ≤ CUTOFF_TIMESTAMP →
      tx.transaction_id ∉ logged_tx_ids →
      countPosts tx.transaction_id
        (runSync store1 logged_tx_ids [txns]).1.posts = 1 ∧
      countPosts tx.transaction_id
        (runSync store2 ((runSync store1 logged_tx_ids [txns]).2)
          [txns]).1.posts = 0) := by
  refine ⟨fun store logged st tx h => processTx_skip_of_logged store logged st tx h,
    ?_, ?_⟩
  · intro store logged accounts p hp
    have h0 : ∀ q ∈ initSyncState.posts, q.1 ∈ initSyncState.newIds := by
      intro q hq; simp [initSyncState] at hq
    have hinv := foldAccounts_posts_inv store logged accounts initSyncState h0 p hp
    exact List.mem_append.mpr (Or.inr hinv)
  · intro store1 store2 logged txns tx hmem huniq hex hts hnew
    obtain ⟨L1, L2, hdec⟩ := List.append_of_mem hmem
    have hfl : ((L1 ++ tx :: L2).filter
        (fun t => t.transaction_id == tx.transaction_id)).length = 1 := by
      rw [← hdec]; exact huniq
    rw [List.filter_append, List.filter_cons] at hfl
    simp only [beq_self_eq_true, if_true, List.length_append, List.length_cons] at hfl
    have hL1len : ((L1.filter (fun t => t.transaction_id == tx.transaction_id)).length) = 0 := by
      omega
    have hL2len : ((L2.filter (fun t => t.transaction_id == tx.transaction_id)).length) = 0 := by
      omega
    have hL1 : ∀ t ∈ L1, t.transaction_id ≠ tx.transaction_id := by
      intro t ht
      have := List.filter_eq_nil_iff.mp (List.length_eq_zero.mp hL1len) t ht
      simpa using this
    have hL2 : ∀ t ∈ L2, t.transaction_id ≠ tx.transaction_id := by
      intro t ht
      have := List.filter_eq_nil_iff.mp (List.length_eq_zero.mp hL2len) t ht
      simpa using this
    have hreg := processTx_count_regular store1 logged
      (L1.foldl (processTx store1 logged) initSyncState) tx hnew hts hex
    have hcount1 : countPosts tx.transaction_id
        ((txns.take 10).foldl (processTx store1 logged) initSyncState).posts = 1 := by
      rw [hdec, List.foldl_append, List.foldl_cons]
      rw [fold_count_skip store1 logged tx.transaction_id L2 _
        (fun t ht htid => absurd htid (hL2 t ht))]
      rw [hreg.1]
      rw [fold_count_skip store1 logged tx.transaction_id L1 initSyncState
        (fun t ht htid => absurd htid (hL1 t ht))]
      rfl
    have hsave : tx.transaction_id ∈ (runSync store1 logged [txns]).2 := by
      show tx.transaction_id ∈ logged
        ++ ((txns.take 10).foldl (processTx store1 logged) initSyncState).newIds
      refine List.mem_append.mpr (Or.inr ?_)
      rw [hdec, List.foldl_append, List.foldl_cons]
      exact fold_newIds_mono store1 logged L2 _ _ hreg.2
    refine ⟨hcount1, ?_⟩
    show countPosts tx.transaction_id
      ((txns.take 10).foldl
        (processTx store2 ((runSync store1 logged [txns]).2)) initSyncState).posts = 0
    rw [fold_count_skip store2 ((runSync store1 logged [txns]).2) tx.transaction_id
      (txns.take 10) initSyncState (fun t ht htid => by rw [htid]; exact hsave)]
    rfl

/-- Witness for C1 amended: a ledger hit is skipped; a fresh regular
transaction is posted once, its identifier is saved, and a second run with
the saved ledger posts it zero times. -/
theorem c1_dedup_pipeline_witness :
    processTx (fun _ _ => true) ["t0"] initSyncState ⟨"t0", 1, "PLN", "x", 1755439300⟩
      = { initSyncState with skipped := 1 } ∧
    "t9" ∈ (runSync (fun _ _ => true) []
        [[⟨"t9", -50, "PLN", "Groceries", 1755439300⟩]]).2 ∧
    countPosts "t9" (runSync (fun _ _ => true) []
        [[⟨"t9", -50, "PLN", "Groceries", 1755439300⟩]]).1.posts = 1 ∧
    countPosts "t9" (runSync (fun _ _ => true)
        ((runSync (fun _ _ => true) []
          [[⟨"t9", -50, "PLN", "Groceries", 1755439300⟩]]).2)
        [[⟨"t9", -50, "PLN", "Groceries", 1755439300⟩]]).1.posts = 0 := by
  have h3 := c1_dedup_pipeline.2.2 (fun _ _ => true) (fun _ _ => true) []
    [⟨"t9", -50, "PLN", "Groceries", 1755439300⟩]
    ⟨"t9", -50, "PLN", "Groceries", 1755439300⟩
    (by decide) (by decide) (by decide) (by decide) (by decide)
  exact ⟨c1_dedup_pipeline.1 (fun _ _ => true) ["t0"] initSyncState
      ⟨"t0", 1, "PLN", "x", 1755439300⟩ (by decide),
    c1_dedup_pipeline.2.1 (fun _ _ => true) []
      [[⟨"t9", -50, "PLN", "Groceries", 1755439300⟩]] ("t9", false) (by decide),
    h3.1, h3.2⟩

/-! ## C10: only the first 10 transactions per account are considered -/

/-- C10: a sync run is unchanged by truncating every account's feed batch to
its first 10 transactions (so nothing past the tenth position is posted,
queued, counted or saved); moreover a transaction past the tenth position
whose identifier does not occur in the first ten (and is not already in the
ledger) appears in no create call of the run and is not in the saved
ledger. -/
theorem c10_first_ten_only :
    (∀ (store : String → Bool → Bool) (logged_tx_ids : List String)
       (accounts : List (List Tx)),
      runSync store logged_tx_ids accounts
        = runSync store logged_tx_ids (accounts.map (fun txns => txns.take 10))) ∧
    (∀ (store : String → Bool → Bool) (logged_tx_ids : List String)
       (txns : List Tx), ∀ tx ∈ txns.drop 10,
      tx.transaction_id ∉ (txns.take 10).map Tx.transaction_id →
      tx.transaction_id ∉ logged_tx_ids →
      countPosts tx.transaction_id
        (runSync store logged_tx_ids [txns]).1.posts = 0 ∧
      tx.transaction_id ∉ (runSync store logged_tx_ids [txns]).2) := by
  constructor
  · intro store logged accounts
    have key : ∀ (accs : List (List Tx)) (st : SyncState),
        accs.foldl (processAccount store logged) st
          = (accs.map (fun txns => txns.take 10)).foldl
              (processAccount store logged) st := by
      intro accs
      induction accs with
      | nil => intro st; rfl
      | cons a rest ih =>
        intro st
        rw [List.map_cons, List.foldl_cons, List.foldl_cons, ih]
        have hacc : processAccount store logged st a
            = processAccount store logged st (a.take 10) := by
          rw [processAccount, processAccount, List.take_take, Nat.min_self]
        rw [hacc]
    simp only [runSync]
    rw [key accounts initSyncState]
  · intro store logged txns tx htx hnotin hnlog
    have hskip : ∀ t ∈ txns.take 10, t.transaction_id = tx.transaction_id →
        t.transaction_id ∈ logged := by
      intro t ht htid
      exact absurd (htid ▸ List.mem_map_of_mem Tx.transaction_id ht) hnotin
    constructor
    · show countPosts tx.transaction_id
        ((txns.take 10).foldl (processTx store logged) initSyncState).posts = 0
      rw [fold_count_skip store logged tx.transaction_id (txns.take 10)
        initSyncState hskip]
      rfl
    · show tx.transaction_id ∉ logged
        ++ ((txns.take 10).foldl (processTx store logged) initSyncState).newIds
      intro hmem
      rcases List.mem_append.mp hmem with h | h
      · exact hnlog h
      · rcases fold_newIds_sub store logged (txns.take 10) initSyncState _ h with
          h0 | ⟨t, ht, htid⟩
        · simp [initSyncState] at h0
        · exact hnotin (by rw [htid]; exact List.mem_map_of_mem Tx.transaction_id ht)

/-- Witness for C10: an 11th transaction with a fresh identifier is neither
posted nor saved. -/
theorem c10_first_ten_only_witness :
    countPosts "b"
      (runSync (fun _ _ => true) []
        [List.replicate 10 (⟨"a", 1, "PLN", "x", 1755439300⟩ : Tx)
          ++ [⟨"b", 1, "PLN", "x", 1755439300⟩]]).1.posts = 0 ∧
    "b" ∉ (runSync (fun _ _ => true) []
        [List.replicate 10 (⟨"a", 1, "PLN", "x", 1755439300⟩ : Tx)
          ++ [⟨"b", 1, "PLN", "x", 1755439300⟩]]).2 :=
  (c10_first_ten_only).2 (fun _ _ => true) []
    (List.replicate 10 (⟨"a", 1, "PLN", "x", 1755439300⟩ : Tx)
      ++ [⟨"b", 1, "PLN", "x", 1755439300⟩])
    ⟨"b", 1, "PLN", "x", 1755439300⟩ (by decide) (by decide) (by decide)

end NotionRevolut
